import Mathlib

/-!
Shallow embedding of `src/main.rs` of the rust-triangle repository.

The program is a single linear `main`: create a GLFW window, compile and
link a vertex/fragment shader pair, upload a 9-float triangle mesh, then
run a render loop until the window's should-close flag becomes true.

The embedding records every graphics-API call the program issues as a
constructor of `GLCall`, so that the program becomes a pure function from
its environment (compile/link statuses, info logs, framebuffer size, and
the schedule of polled event batches) to either a fatal abort or the list
of calls it performs.  The event handler `glfw_handle_event` is embedded
as a pure transformer of the window's should-close flag.
-/

namespace RustTriangle

/-- Window width constant from `main.rs` line 4. -/
def WINDOW_WIDTH : Nat := 1280

/-- Window height constant from `main.rs` line 5. -/
def WINDOW_HEIGHT : Nat := 640

/-- Window title constant from `main.rs` line 6. -/
def WINDOW_TITLE : String := "GLFW Triangle"

/-- Vertex shader source string (`main.rs` lines 8-14), newlines escaped. -/
def VERT_SHADER : String :=
  "#version 330 core\n    layout (location = 0) in vec3 position;\n     \n    void main()\n    \x7b\n        gl_Position = vec4(position, 1.0);\n    \x7d"

/-- Fragment shader source string (`main.rs` lines 16-21), newlines escaped. -/
def FRAG_SHADER : String :=
  "#version 330 core\n    out vec4 Color;\n    void main()\n    \x7b\n        Color = vec4(0.9, 0.2, 0.6, 1.0);\n    \x7d"

/-- OpenGL enumerant `gl::ARRAY_BUFFER`. -/
def GL_ARRAY_BUFFER : Nat := 0x8892

/-- OpenGL enumerant `gl::STATIC_DRAW`. -/
def GL_STATIC_DRAW : Nat := 0x88E4

/-- OpenGL enumerant `gl::FLOAT`. -/
def GL_FLOAT : Nat := 0x1406

/-- OpenGL enumerant `gl::TRIANGLES`. -/
def GL_TRIANGLES : Nat := 0x0004

/-- OpenGL enumerant `gl::COLOR_BUFFER_BIT`. -/
def GL_COLOR_BUFFER_BIT : Nat := 0x00004000

/-- OpenGL enumerant `gl::VERTEX_SHADER`. -/
def GL_VERTEX_SHADER : Nat := 0x8B31

/-- OpenGL enumerant `gl::FRAGMENT_SHADER`. -/
def GL_FRAGMENT_SHADER : Nat := 0x8B30

/-- GLFW key action, mirroring `glfw::Action` (Press, Release, Repeat). -/
inductive Action
  | press
  | release
  | rep
deriving DecidableEq, Repr

/-- GLFW key, mirroring `glfw::Key`: the key `Q` matched in
`glfw_handle_event`, and every other key abstracted by its code. -/
inductive Key
  | q
  | other (code : Nat)
deriving DecidableEq, Repr

/-- GLFW window event, mirroring the `glfw::WindowEvent` variants that
`glfw_handle_event` distinguishes: `Close`, `Key(key, scancode, action,
mods)`, and all remaining variants collapsed into `other`. -/
inductive Event
  | close
  | key (k : Key) (scancode : Int) (action : Action) (mods : Nat)
  | other
deriving DecidableEq, Repr

/-- Embedding of `glfw_handle_event` (`main.rs` lines 212-222).  The Rust
function mutates `window.set_should_close`; here it is a pure transformer
of the should-close flag.  `Event::Close` and `Event::Key(Key::Q, _,
Action::Press, _)` set the flag to true; every other event falls into the
wildcard arm and leaves the flag unchanged (the `println!` trace is pure
console output with no state effect). -/
def glfw_handle_event (shouldClose : Bool) (event : Event) : Bool :=
  match event with
  | Event.close => true
  | Event.key Key.q _ Action.press _ => true
  | _ => shouldClose

/-- Folding `glfw_handle_event` over one polled batch of events, as the
`for (_, event) in glfw::flush_messages(&events)` loop does. -/
def processEvents (shouldClose : Bool) (events : List Event) : Bool :=
  events.foldl glfw_handle_event shouldClose

/-- Triangle coordinates (`main.rs` lines 129-133): the 9 `f32` values,
all exactly representable, embedded as rationals. -/
def vertices : List ℚ :=
  [-0.5, -0.5, 0.0,
    0.5, -0.5, 0.0,
    0.0, 0.5, 0.0]

/-- Shader handle returned by the first `gl::CreateShader` call.  OpenGL
returns distinct nonzero names for live shader objects; the embedding
allocates them in order of creation. -/
def vertexShaderId : Nat := 1

/-- Shader handle returned by the second `gl::CreateShader` call. -/
def fragmentShaderId : Nat := 2

/-- Program handle returned by `gl::CreateProgram`. -/
def shaderProgramId : Nat := 3

/-- Vertex-array object name written by `gl::GenVertexArrays`. -/
def vaoId : Nat := 1

/-- Buffer object name written by `gl::GenBuffers`. -/
def vboId : Nat := 1

/-- One graphics-API call issued by the program.  Constructors cover every
`gl::` call `main.rs` makes, the delete calls for program/VAO/VBO and the
`BufferSubData` update call (which the program never issues, so that "never
deleted" and "never modified" are statable), plus the GLFW-side steps of a
loop iteration (poll, per-event dispatch, buffer swap). -/
inductive GLCall
  | viewport (x y w h : Int)
  | clearColor (r g b a : ℚ)
  | createShader (shaderType id : Nat)
  | shaderSource (id : Nat) (src : String)
  | compileShader (id : Nat)
  | createProgram (id : Nat)
  | attachShader (program shader : Nat)
  | linkProgram (program : Nat)
  | detachShader (program shader : Nat)
  | deleteShader (shader : Nat)
  | deleteProgram (program : Nat)
  | genVertexArrays (id : Nat)
  | genBuffers (id : Nat)
  | deleteVertexArrays (id : Nat)
  | deleteBuffers (id : Nat)
  | bindVertexArray (id : Nat)
  | bindBuffer (target id : Nat)
  | bufferData (target : Nat) (data : List ℚ) (usage : Nat)
  | bufferSubData (target offset : Nat) (data : List ℚ)
  | vertexAttribPointer (index size ty : Nat) (normalized : Bool) (stride : Int) (offset : Nat)
  | enableVertexAttribArray (index : Nat)
  | useProgram (id : Nat)
  | clear (mask : Nat)
  | drawArrays (mode : Nat) (first count : Int)
  | pollEvents
  | dispatchEvent (e : Event)
  | swapBuffers
deriving DecidableEq, Repr

/-- Fatal abort of the process: the `.expect` on window creation and the
three `panic!` sites of `main.rs`.  Each shader/link constructor carries
the diagnostic-log bytes the panic message embeds (the vertex message
reads "Vertex Shared Compile Error", a typo kept in the source). -/
inductive FatalError
  | windowCreate (msg : String)
  | vertexShaderCompile (log : List Nat)
  | fragmentShaderCompile (log : List Nat)
  | programLink (log : List Nat)
deriving DecidableEq, Repr

/-- Environment of one run: outcomes the GL/GLFW implementation reports
back to the program, and the framebuffer size. -/
structure GLEnv where
  windowOk : Bool
  vertexCompileStatus : Bool
  fragmentCompileStatus : Bool
  linkStatus : Bool
  vertexInfoLog : List Nat
  fragmentInfoLog : List Nat
  programInfoLog : List Nat
  screenWidth : Int
  screenHeight : Int
deriving DecidableEq, Repr

/-- Bytes placed in the 1024-byte scratch buffer by
`gl::GetShaderInfoLog`/`gl::GetProgramInfoLog` with `bufSize = 1024`: at
most 1023 log characters fit before the NUL terminator, and the returned
`log_len` (used by `v.set_len`) excludes the terminator. -/
def infoLogBytes (log : List Nat) : List Nat :=
  log.take 1023

/-- The GL calls of the setup phase of `main` (`main.rs` lines 44-164) on
the success path, in program order.  Lines 123-124 of the source delete
`vertex_shader` twice; the trace reproduces that faithfully. -/
def setupTrace (screenWidth screenHeight : Int) : List GLCall :=
  [GLCall.viewport 0 0 screenWidth screenHeight,
   GLCall.clearColor 0.12 0.12 0.12 1.0,
   GLCall.createShader GL_VERTEX_SHADER vertexShaderId,
   GLCall.shaderSource vertexShaderId VERT_SHADER,
   GLCall.compileShader vertexShaderId,
   GLCall.createShader GL_FRAGMENT_SHADER fragmentShaderId,
   GLCall.shaderSource fragmentShaderId FRAG_SHADER,
   GLCall.compileShader fragmentShaderId,
   GLCall.createProgram shaderProgramId,
   GLCall.attachShader shaderProgramId vertexShaderId,
   GLCall.attachShader shaderProgramId fragmentShaderId,
   GLCall.linkProgram shaderProgramId,
   GLCall.detachShader shaderProgramId vertexShaderId,
   GLCall.detachShader shaderProgramId fragmentShaderId,
   GLCall.deleteShader vertexShaderId,
   GLCall.deleteShader vertexShaderId,
   GLCall.genVertexArrays vaoId,
   GLCall.genBuffers vboId,
   GLCall.bindVertexArray vaoId,
   GLCall.bindBuffer GL_ARRAY_BUFFER vboId,
   GLCall.bufferData GL_ARRAY_BUFFER vertices GL_STATIC_DRAW,
   GLCall.vertexAttribPointer 0 3 GL_FLOAT false (3 * 4) 0,
   GLCall.enableVertexAttribArray 0,
   GLCall.bindBuffer GL_ARRAY_BUFFER 0,
   GLCall.bindVertexArray 0]

/-- The calls of one render-loop iteration (`main.rs` lines 172-192):
poll, dispatch each flushed event to `glfw_handle_event`, clear the color
buffer, bind program and VAO, draw 3 vertices as triangles, unbind the
VAO, swap buffers. -/
def frameTrace (events : List Event) : List GLCall :=
  GLCall.pollEvents :: events.map GLCall.dispatchEvent ++
    [GLCall.clear GL_COLOR_BUFFER_BIT,
     GLCall.useProgram shaderProgramId,
     GLCall.bindVertexArray vaoId,
     GLCall.drawArrays GL_TRIANGLES 0 3,
     GLCall.bindVertexArray 0,
     GLCall.swapBuffers]

/-- The render loop `while !window.should_close()` over a finite schedule
of polled event batches (the modelled prefix of the run): if the flag is
already true the loop exits before polling; otherwise one full iteration
runs — dispatching the batch may set the flag — and the loop re-checks. -/
def renderLoop (shouldClose : Bool) : List (List Event) → List GLCall
  | [] => []
  | batch :: rest =>
      if shouldClose then []
      else frameTrace batch ++ renderLoop (processEvents shouldClose batch) rest

/-- Embedding of `main`: the fatal-abort checks in source order (window
creation, vertex compile status, fragment compile status, link status),
then the full call trace of the run.  An `Except.error` is a process abort
before the render loop is ever entered; `Except.ok` is a run that reaches
the loop and, on loop exit, returns from `main` with exit code 0. -/
def mainRun (env : GLEnv) (batches : List (List Event)) : Except FatalError (List GLCall) :=
  if !env.windowOk then
    Except.error (FatalError.windowCreate "Failed to create GLFW window.")
  else if !env.vertexCompileStatus then
    Except.error (FatalError.vertexShaderCompile (infoLogBytes env.vertexInfoLog))
  else if !env.fragmentCompileStatus then
    Except.error (FatalError.fragmentShaderCompile (infoLogBytes env.fragmentInfoLog))
  else if !env.linkStatus then
    Except.error (FatalError.programLink (infoLogBytes env.programInfoLog))
  else
    Except.ok (setupTrace env.screenWidth env.screenHeight ++ renderLoop false batches)

/-- Predicate picking out draw calls. -/
def isDrawCall : GLCall → Bool
  | GLCall.drawArrays _ _ _ => true
  | _ => false

/-- Predicate picking out buffer-content writes (initial upload or later
update). -/
def isBufferWrite : GLCall → Bool
  | GLCall.bufferData _ _ _ => true
  | GLCall.bufferSubData _ _ _ => true
  | _ => false

/-- Predicate picking out program-object creation. -/
def isProgramCreate : GLCall → Bool
  | GLCall.createProgram _ => true
  | _ => false

/-- Predicate picking out vertex-array-object creation. -/
def isVaoGen : GLCall → Bool
  | GLCall.genVertexArrays _ => true
  | _ => false

/-- Predicate picking out buffer-object creation. -/
def isBufferGen : GLCall → Bool
  | GLCall.genBuffers _ => true
  | _ => false

/-- Predicate picking out deletion of the program, VAO, or VBO resources. -/
def isResourceDelete : GLCall → Bool
  | GLCall.deleteProgram _ => true
  | GLCall.deleteVertexArrays _ => true
  | GLCall.deleteBuffers _ => true
  | _ => false

/-- Predicate picking out vertex-attribute-descriptor configuration calls. -/
def isAttribPointerCall : GLCall → Bool
  | GLCall.vertexAttribPointer _ _ _ _ _ _ => true
  | _ => false

/-- Predicate picking out releases of a given shader handle. -/
def isDeleteShaderOf (id : Nat) : GLCall → Bool
  | GLCall.deleteShader s => s == id
  | _ => false

/-- Predicate picking out detaches of a given shader handle from a given
program. -/
def isDetachShaderOf (program shader : Nat) : GLCall → Bool
  | GLCall.detachShader p s => p == program && s == shader
  | _ => false

/-! Helper lemmas about the event handler and the render loop. -/

/-- The handler never resets a should-close flag that is already true. -/
lemma handle_event_of_true (e : Event) : glfw_handle_event true e = true := by
  cases e with
  | close => rfl
  | key k sc a m => cases k <;> cases a <;> rfl
  | other => rfl

/-- Every arm of the handler either leaves the flag unchanged or sets it
to true. -/
lemma handle_event_eq_or_true (f : Bool) (e : Event) :
    glfw_handle_event f e = f ∨ glfw_handle_event f e = true := by
  cases e with
  | close => exact Or.inr rfl
  | key k sc a m => cases k <;> cases a <;> simp [glfw_handle_event]
  | other => exact Or.inl rfl

lemma processEvents_cons (f : Bool) (e : Event) (es : List Event) :
    processEvents f (e :: es) = processEvents (glfw_handle_event f e) es := rfl

/-- A batch dispatched with the flag already true leaves it true. -/
lemma processEvents_of_true (es : List Event) : processEvents true es = true := by
  induction es with
  | nil => rfl
  | cons e es ih => rw [processEvents_cons, handle_event_of_true]; exact ih

/-- Dispatching a batch that contains the close event ends with the flag
true, whatever it started as. -/
lemma processEvents_close (f : Bool) (es : List Event) (h : Event.close ∈ es) :
    processEvents f es = true := by
  induction es generalizing f with
  | nil => cases h
  | cons e es ih =>
    rcases List.mem_cons.mp h with he | hm
    · rw [processEvents_cons, ← he]
      exact processEvents_of_true es
    · rw [processEvents_cons]
      exact ih _ hm

/-- With the flag already true the loop exits before polling anything. -/
lemma renderLoop_of_true (batches : List (List Event)) : renderLoop true batches = [] := by
  cases batches <;> simp [renderLoop]

/-- Event dispatches contribute nothing to a count of GL calls that are
not dispatches. -/
lemma countP_dispatch_map (p : GLCall → Bool)
    (hd : ∀ e, p (GLCall.dispatchEvent e) = false) (b : List Event) :
    (b.map GLCall.dispatchEvent).countP p = 0 := by
  induction b with
  | nil => rfl
  | cons e es ih => simp [List.countP_cons, hd, ih]

/-- A predicate false on each kind of call a frame makes counts zero over
a frame trace. -/
lemma frameTrace_countP_zero (p : GLCall → Bool)
    (hd : ∀ e, p (GLCall.dispatchEvent e) = false)
    (h1 : p GLCall.pollEvents = false)
    (h2 : p (GLCall.clear GL_COLOR_BUFFER_BIT) = false)
    (h3 : p (GLCall.useProgram shaderProgramId) = false)
    (h4 : ∀ n, p (GLCall.bindVertexArray n) = false)
    (h5 : p (GLCall.drawArrays GL_TRIANGLES 0 3) = false)
    (h6 : p GLCall.swapBuffers = false)
    (b : List Event) :
    (frameTrace b).countP p = 0 := by
  simp [frameTrace, List.countP_cons, List.countP_append,
    countP_dispatch_map p hd, h1, h2, h3, h4, h5, h6]

/-- A predicate counting zero over every frame trace counts zero over the
whole render loop. -/
lemma renderLoop_countP_zero (p : GLCall → Bool)
    (hframe : ∀ b, (frameTrace b).countP p = 0) :
    ∀ (f : Bool) (batches : List (List Event)), (renderLoop f batches).countP p = 0 := by
  intro f batches
  induction batches generalizing f with
  | nil => rfl
  | cons b rest ih =>
    cases f with
    | true => simp [renderLoop]
    | false => simp [renderLoop, List.countP_append, hframe, ih]

/-! Claim theorems. -/

/-- C1: the spec asks that after a successful link the two shader-stage
handles each be detached and released exactly once.  The code detaches
both exactly once but then releases the vertex shader handle twice
(`main.rs` lines 123-124) and never releases the fragment shader handle:
for every framebuffer size, the setup trace holds two deletes of
`vertexShaderId` and none of the distinct handle `fragmentShaderId`. -/
theorem c1_shader_release_bug (sw sh : Int) :
    vertexShaderId ≠ fragmentShaderId ∧
    (setupTrace sw sh).countP (isDetachShaderOf shaderProgramId vertexShaderId) = 1 ∧
    (setupTrace sw sh).countP (isDetachShaderOf shaderProgramId fragmentShaderId) = 1 ∧
    (setupTrace sw sh).countP (isDeleteShaderOf vertexShaderId) = 2 ∧
    (setupTrace sw sh).countP (isDeleteShaderOf fragmentShaderId) = 0 := by
  refine ⟨by decide, ?_, ?_, ?_, ?_⟩ <;>
    simp [setupTrace, List.countP_cons, isDetachShaderOf, isDeleteShaderOf,
      vertexShaderId, fragmentShaderId, shaderProgramId]

/-- C2: whenever a compile-status check or the link-status check reports
failure, the run aborts — before the render loop is ever entered (the
result is an error, not a call trace) — carrying the diagnostic log as
truncated to the 1024-byte scratch buffer; and every truncated log fits
in 1024 bytes.  The checks are tried in source order, so each failure case
assumes the earlier checks passed. -/
theorem c2_failure_aborts_with_log (env : GLEnv) (batches : List (List Event))
    (hw : env.windowOk = true) :
    (env.vertexCompileStatus = false →
      mainRun env batches =
        Except.error (FatalError.vertexShaderCompile (infoLogBytes env.vertexInfoLog))) ∧
    (env.vertexCompileStatus = true → env.fragmentCompileStatus = false →
      mainRun env batches =
        Except.error (FatalError.fragmentShaderCompile (infoLogBytes env.fragmentInfoLog))) ∧
    (env.vertexCompileStatus = true → env.fragmentCompileStatus = true →
      env.linkStatus = false →
      mainRun env batches =
        Except.error (FatalError.programLink (infoLogBytes env.programInfoLog))) ∧
    (∀ log : List Nat, (infoLogBytes log).length ≤ 1024) := by
  refine ⟨?_, ?_, ?_, ?_⟩
  · intro hv
    simp [mainRun, hw, hv]
  · intro hv hf
    simp [mainRun, hw, hv, hf]
  · intro hv hf hl
    simp [mainRun, hw, hv, hf, hl]
  · intro log
    simp only [infoLogBytes, List.length_take]
    omega

/-- C2 witness: a run whose vertex shader fails to compile aborts with
that shader's log. -/
theorem c2_failure_aborts_with_log_witness :
    mainRun (GLEnv.mk true false true true [101, 114, 114] [] [] 1280 640) [] =
      Except.error (FatalError.vertexShaderCompile (infoLogBytes [101, 114, 114])) :=
  (c2_failure_aborts_with_log
    (GLEnv.mk true false true true [101, 114, 114] [] [] 1280 640) [] rfl).1 rfl

/-- C3: a polled batch containing the window-close event sets the
should-close flag, the loop performs no iteration beyond the one that
dispatched it, and a run whose setup succeeded ends in `Except.ok` — a
normal return from `main` (exit code 0), with no fatal diagnostic. -/
theorem c3_close_event_exits (env : GLEnv) (b : List Event) (rest : List (List Event))
    (hw : env.windowOk = true) (hv : env.vertexCompileStatus = true)
    (hf : env.fragmentCompileStatus = true) (hl : env.linkStatus = true)
    (hb : Event.close ∈ b) :
    processEvents false b = true ∧
    renderLoop false (b :: rest) = frameTrace b ∧
    mainRun env (b :: rest) =
      Except.ok (setupTrace env.screenWidth env.screenHeight ++ frameTrace b) := by
  have hp : processEvents false b = true := processEvents_close false b hb
  refine ⟨hp, ?_, ?_⟩
  · simp [renderLoop, hp, renderLoop_of_true]
  · simp [mainRun, hw, hv, hf, hl, renderLoop, hp, renderLoop_of_true]

/-- C3 witness: a close event delivered in the very first batch ends the
run normally after that single iteration. -/
theorem c3_close_event_exits_witness :
    processEvents false [Event.close] = true ∧
    renderLoop false [[Event.close]] = frameTrace [Event.close] ∧
    mainRun (GLEnv.mk true true true true [] [] [] 1280 640) [[Event.close]] =
      Except.ok (setupTrace 1280 640 ++ frameTrace [Event.close]) :=
  c3_close_event_exits (GLEnv.mk true true true true [] [] [] 1280 640)
    [Event.close] [] rfl rfl rfl rfl (by decide)

/-- C4: a key-press of Q sets the should-close flag to true; a key-press
of any other key returns the flag unchanged — the flag is the handler's
only state, so no other state changes. -/
theorem c4_keypress_q_sets_flag (flag : Bool) (k : Key) (sc : Int) (m : Nat)
    (hk : k ≠ Key.q) :
    glfw_handle_event flag (Event.key Key.q sc Action.press m) = true ∧
    glfw_handle_event flag (Event.key k sc Action.press m) = flag := by
  refine ⟨rfl, ?_⟩
  cases k with
  | q => exact absurd rfl hk
  | other c => rfl

/-- C4 witness: pressing Q closes, pressing the key with code 65 does
not. -/
theorem c4_keypress_q_sets_flag_witness :
    glfw_handle_event false (Event.key Key.q 16 Action.press 0) = true ∧
    glfw_handle_event false (Event.key (Key.other 65) 16 Action.press 0) = false :=
  c4_keypress_q_sets_flag false (Key.other 65) 16 0 (by decide)

/-- C9: only the Press action of key Q sets the flag; Release or Repeat
of key Q leaves it unchanged like any other event. -/
theorem c9_only_press_sets_flag (flag : Bool) (sc : Int) (m : Nat) (a : Action)
    (ha : a ≠ Action.press) :
    glfw_handle_event flag (Event.key Key.q sc a m) = flag ∧
    glfw_handle_event flag (Event.key Key.q sc Action.press m) = true := by
  refine ⟨?_, rfl⟩
  cases a with
  | press => exact absurd rfl ha
  | release => rfl
  | rep => rfl

/-- C9 witness: releasing Q leaves the flag false; pressing it sets it. -/
theorem c9_only_press_sets_flag_witness :
    glfw_handle_event false (Event.key Key.q 16 Action.release 0) = false ∧
    glfw_handle_event false (Event.key Key.q 16 Action.press 0) = true :=
  c9_only_press_sets_flag false 16 0 Action.release (by decide)

/-- C10: the handler is monotone in the should-close flag: every event
either leaves the flag unchanged or sets it true, an event never turns a
true flag false, and once true the flag survives any further batch. -/
theorem c10_should_close_monotone (flag : Bool) (e : Event) (es : List Event) :
    (glfw_handle_event flag e = flag ∨ glfw_handle_event flag e = true) ∧
    glfw_handle_event true e = true ∧
    processEvents true es = true :=
  ⟨handle_event_eq_or_true flag e, handle_event_of_true e, processEvents_of_true es⟩

/-- C5: the setup phase performs exactly one buffer write — the
static-usage upload of the 9 values [-0.5,-0.5,0, 0.5,-0.5,0, 0,0.5,0] to
the array-buffer target — and no render-loop iteration ever writes buffer
contents again. -/
theorem c5_vertex_buffer_content (sw sh : Int) (batches : List (List Event)) :
    vertices = [-0.5, -0.5, 0.0, 0.5, -0.5, 0.0, 0.0, 0.5, 0.0] ∧
    vertices.length = 9 ∧
    (setupTrace sw sh).countP isBufferWrite = 1 ∧
    GLCall.bufferData GL_ARRAY_BUFFER vertices GL_STATIC_DRAW ∈ setupTrace sw sh ∧
    (renderLoop false batches).countP isBufferWrite = 0 := by
  refine ⟨rfl, rfl, ?_, ?_, ?_⟩
  · simp [setupTrace, List.countP_cons, isBufferWrite]
  · simp [setupTrace]
  · exact renderLoop_countP_zero isBufferWrite
      (fun b => frameTrace_countP_zero _ (fun e => rfl) rfl rfl rfl (fun n => rfl) rfl rfl b)
      false batches

/-- C6: the single vertex-attribute descriptor is configured at slot 0
with 3 components of floating-point type, not normalized, stride 12
bytes, offset 0, and slot 0 is enabled; no other attribute-pointer call
appears in the whole run. -/
theorem c6_vertex_attrib_config (sw sh : Int) (batches : List (List Event)) :
    GLCall.vertexAttribPointer 0 3 GL_FLOAT false 12 0 ∈ setupTrace sw sh ∧
    GLCall.enableVertexAttribArray 0 ∈ setupTrace sw sh ∧
    (setupTrace sw sh).countP isAttribPointerCall = 1 ∧
    (renderLoop false batches).countP isAttribPointerCall = 0 := by
  refine ⟨?_, ?_, ?_, ?_⟩
  · simp [setupTrace]
  · simp [setupTrace]
  · simp [setupTrace, List.countP_cons, isAttribPointerCall]
  · exact renderLoop_countP_zero isAttribPointerCall
      (fun b => frameTrace_countP_zero _ (fun e => rfl) rfl rfl rfl (fun n => rfl) rfl rfl b)
      false batches

/-- C7: a render-loop iteration entered with the flag false performs, in
order: poll, dispatch each flushed event to the handler, clear the color
buffer, bind the program, bind the VAO, one triangle draw over exactly 3
vertices, unbind the VAO, and swap buffers — and holds exactly one draw
call. -/
theorem c7_render_loop_iteration (b : List Event) (rest : List (List Event)) :
    renderLoop false (b :: rest) =
      (GLCall.pollEvents :: b.map GLCall.dispatchEvent ++
        [GLCall.clear GL_COLOR_BUFFER_BIT,
         GLCall.useProgram shaderProgramId,
         GLCall.bindVertexArray vaoId,
         GLCall.drawArrays GL_TRIANGLES 0 3,
         GLCall.bindVertexArray 0,
         GLCall.swapBuffers]) ++ renderLoop (processEvents false b) rest ∧
    (frameTrace b).countP isDrawCall = 1 := by
  refine ⟨?_, ?_⟩
  · simp [renderLoop, frameTrace]
  · simp [frameTrace, List.countP_cons, List.countP_append,
      countP_dispatch_map isDrawCall (fun e => rfl), isDrawCall]

/-- C8: the program object, the VAO and the VBO are each created exactly
once over the whole run (setup plus any schedule of loop iterations) and
none of them is ever deleted, so each outlives every draw call of the
loop. -/
theorem c8_resources_once_and_live (sw sh : Int) (batches : List (List Event)) :
    (setupTrace sw sh ++ renderLoop false batches).countP isProgramCreate = 1 ∧
    (setupTrace sw sh ++ renderLoop false batches).countP isVaoGen = 1 ∧
    (setupTrace sw sh ++ renderLoop false batches).countP isBufferGen = 1 ∧
    (setupTrace sw sh ++ renderLoop false batches).countP isResourceDelete = 0 := by
  have hp := renderLoop_countP_zero isProgramCreate
    (fun b => frameTrace_countP_zero _ (fun e => rfl) rfl rfl rfl (fun n => rfl) rfl rfl b)
    false batches
  have hv := renderLoop_countP_zero isVaoGen
    (fun b => frameTrace_countP_zero _ (fun e => rfl) rfl rfl rfl (fun n => rfl) rfl rfl b)
    false batches
  have hb := renderLoop_countP_zero isBufferGen
    (fun b => frameTrace_countP_zero _ (fun e => rfl) rfl rfl rfl (fun n => rfl) rfl rfl b)
    false batches
  have hd := renderLoop_countP_zero isResourceDelete
    (fun b => frameTrace_countP_zero _ (fun e => rfl) rfl rfl rfl (fun n => rfl) rfl rfl b)
    false batches
  refine ⟨?_, ?_, ?_, ?_⟩ <;>
    simp [List.countP_append, hp, hv, hb, hd, setupTrace, List.countP_cons,
      isProgramCreate, isVaoGen, isBufferGen, isResourceDelete]

end RustTriangle
